import Mathlib

/-!
Verification development for the topic provisioning and access-reconciliation
orchestrator of tc-message-service (src/app/routes/topics/list.js and the
Discourse service clients).  The JavaScript is shallowly embedded: every remote
call (Discourse, member API, authorization endpoint, postgres) is given its
outcome by an explicit environment, and each run returns the HTTP response it
would send, the updated topic table, and the ordered log of external calls it
issued.
-/

namespace TcMessageService

/-- JSON-ish values as delivered by axios after parsing a response body.
`undefined` stands for the JavaScript value `undefined`, produced by accessing a
missing property. -/
inductive Json where
  | undefined
  | null
  | bool (b : Bool)
  | num (n : Int)
  | str (s : String)
  | arr (elems : List Json)
  | obj (fields : List (String × Json))
deriving Repr

/-- JavaScript property access `j.k`: field lookup on an object, `undefined`
otherwise.  (The source only accesses properties behind `&&` guards or on
objects, so the throwing cases for `null`/`undefined` bases are never hit.) -/
def Json.get (j : Json) (k : String) : Json :=
  match j with
  | .obj fields =>
    match fields.find? (fun p => p.1 == k) with
    | some p => p.2
    | none => .undefined
  | _ => .undefined

/-- JavaScript truthiness of a value.  Note that `{}` and `[]` are truthy. -/
def Json.truthy : Json → Bool
  | .undefined => false
  | .null => false
  | .bool b => b
  | .num n => n != 0
  | .str s => s != ""
  | .arr _ => true
  | .obj _ => true

/-- JavaScript loose equality `v == 200` as used for `result.status == 200`:
a number compares directly, a numeric string is coerced (`"200" == 200` holds).
Exotic coercions (arrays, whitespace padding) are not modelled; no code path
in this development produces them. -/
def jsEq200 : Json → Bool
  | .num n => n == 200
  | .str s => s.toInt? == some 200
  | _ => false

/-- The body-shape test of `userHasAccessToEntity` (list.js lines 80-81):
`response.data && response.data.result && response.data.result.status == 200
&& response.data.result.content`. -/
def entitlementBodyGrants (data : Json) : Bool :=
  data.truthy && (data.get "result").truthy
    && jsEq200 ((data.get "result").get "status")
    && ((data.get "result").get "content").truthy

/-- Split a character list at every occurrence of the separator, keeping empty
segments, exactly like JavaScript `String.prototype.split` with a one-character
separator (`"".split(sep)` gives `[""]`, `"a=".split("=")` gives
`["a", ""]`). -/
def splitChars (sep : Char) : List Char → List Char → List (List Char)
  | [], acc => [acc.reverse]
  | c :: rest, acc =>
    if c == sep then acc.reverse :: splitChars sep rest []
    else splitChars sep rest (c :: acc)

/-- JavaScript `s.split(sep)` for a one-character separator. -/
def jsSplit (s : String) (sep : Char) : List String :=
  (splitChars sep s.data []).map (fun cs => ⟨cs⟩)

/-- Does the second character list start with the first? -/
def charsStartWith : List Char → List Char → Bool
  | [], _ => true
  | _ :: _, [] => false
  | p :: ps, c :: cs => p == c && charsStartWith ps cs

/-- Replace the first occurrence of `pat` in the character list by `rep`. -/
def replaceFirstChars (pat rep : List Char) : List Char → List Char
  | [] => if charsStartWith pat [] then rep else []
  | c :: rest =>
    if charsStartWith pat (c :: rest) then rep ++ (c :: rest).drop pat.length
    else c :: replaceFirstChars pat rep rest

/-- JavaScript `String.prototype.replace` with a string pattern replaces only
the first occurrence; this mirrors `referenceLookup.endpoint.replace(...)` of
list.js line 71, which substitutes the referenceId for the first
`\x7bid\x7d` placeholder. -/
def replaceFirst (s pat rep : String) : String :=
  ⟨replaceFirstChars pat.data rep.data s.data⟩

/-- Outcome of the axios GET issued against the authorization endpoint
(list.js lines 71-88, `timeout: 3000`). -/
inductive HttpResult where
  | timeout
  | transportError
  | response (status : Nat) (data : Json)
deriving Repr

/-- axios with the default `validateStatus` fulfils its promise exactly when
`200 <= status < 300`; any other status, a timeout, or a transport error
rejects the promise and lands in the `.catch` handler. -/
def axiosFulfills : HttpResult → Option Json
  | .response s d => if 200 ≤ s ∧ s < 300 then some d else none
  | .timeout => none
  | .transportError => none

/-- One external call issued during a run, with the `api_username` that the
Discourse client attaches where relevant. -/
inductive Call where
  | dbFindTopics (filter : List (String × String))
  | entitlementCheck (url : String)
  | discourseGetUser (username : String) (apiUsername : String)
  | memberApiGet (handle : String)
  | discourseCreateUser (name username email password : String) (apiUsername : String)
  | discourseCreatePrivatePost (title post users : String) (apiUsername : String)
  | discourseGetTopic (topicId : Json) (apiUsername : String)
  | discourseGrantAccess (userName : String) (topicId : Json) (apiUsername : String)
  | dbSaveTopic (reference referenceId : String) (discourseTopicId : Json)
      (createdBy updatedBy : String)
deriving Repr

/-- Environment of `userHasAccessToEntity`: the `referenceLookups` row for a
reference name (none when no row exists), and the outcome of the authenticated
GET against a given URL. -/
structure EntitlementEnv where
  routeFor : String → Option String
  httpFor : String → HttpResult

/-- list.js lines 60-92, `userHasAccessToEntity(authToken, reference,
referenceId)`.  No `referenceLookups` row resolves `true` immediately; with a
row, the endpoint template has its first `\x7bid\x7d` replaced by the
referenceId and is queried (3 second timeout); the promise resolves `true`
exactly when axios fulfils (2xx) and the body passes `entitlementBodyGrants`,
and resolves `false` on every rejection (`.catch` resolves false).  Returns the
decision together with the log of endpoint calls issued. -/
def userHasAccessToEntity (env : EntitlementEnv) (reference referenceId : String) :
    Bool × List Call :=
  match env.routeFor reference with
  | none => (true, [])
  | some endpoint =>
    let url := replaceFirst endpoint "{id}" referenceId
    match axiosFulfills (env.httpFor url) with
    | none => (false, [.entitlementCheck url])
    | some data => (entitlementBodyGrants data, [.entitlementCheck url])

/-- Outcome of `discourseClient.getUser`: the Discourse client resolves with
`response.data`; the rejection is either the 404 "user does not exist" or any
other failure (5xx, transport).  list.js treats every rejection alike. -/
inductive GetUserOutcome where
  | ok (data : Json)
  | notFound
  | otherError
deriving Repr

/-- Outcome of `getTopcoderUser` (member API): resolves
`response.data.result.content`, modelled as the profile fields the caller
reads; any rejection (including a malformed body making the property chain
throw) is `err`. -/
inductive MemberOutcome where
  | ok (firstName lastName handle email : String)
  | err
deriving Repr

/-- Outcome of `discourseClient.createUser`: `ok` carries `result.data`, whose
`success` field list.js inspects; `transportError` is an axios rejection. -/
inductive CreateUserOutcome where
  | ok (data : Json)
  | transportError
deriving Repr

/-- Outcome of `discourseClient.createPrivatePost`: the client returns the raw
axios response, so `ok` carries `response.status` (in 2xx, since axios rejects
otherwise) and `response.data`; `rejected` is any axios rejection. -/
inductive CreatePostOutcome where
  | ok (status : Nat) (data : Json)
  | rejected
deriving Repr

/-- Outcome of `discourseClient.getTopic`: the client resolves
`response.data` (the topic document); a rejection is either the 403 that
triggers reconciliation or any other failure. -/
inductive GetTopicOutcome where
  | ok (doc : Json)
  | forbidden403
  | otherError
deriving Repr

/-- The sentinel Discourse password `config.defaultDiscoursePw`. -/
def defaultDiscoursePw : String := "defaultDiscoursePw"

/-- Outcomes of every remote call a single run can issue, plus the relevant
configuration.  `getTopic1` answers the first `getTopic` call of the run and
`getTopic2` the (at most one) second call; every other remote operation is
called at most once per run.  `grantOk` and `dbSaveOk` tell whether
`grantAccess` and `pgTopic.save()` fulfil. -/
structure RunEnv where
  discourseSystemUsername : String
  routeFor : String → Option String
  httpFor : String → HttpResult
  getUser : GetUserOutcome
  member : MemberOutcome
  createUser : CreateUserOutcome
  createPost : CreatePostOutcome
  getTopic1 : GetTopicOutcome
  getTopic2 : GetTopicOutcome
  grantOk : Bool
  dbSaveOk : Bool

/-- The entitlement-environment part of a run environment. -/
def RunEnv.ent (env : RunEnv) : EntitlementEnv :=
  { routeFor := env.routeFor, httpFor := env.httpFor }

/-- Result of `checkAccessAndProvision`: `denied` is the explicit
`Promise.reject` on a false entitlement decision, `ok` resolves with the
Discourse user data (existing user, or `result.data` of the creation), and
`failed` is any other rejection of the chain. -/
inductive ProvisionOutcome where
  | denied
  | ok (user : Json)
  | failed
deriving Repr

/-- list.js lines 99-141, `checkAccessAndProvision(req, filter)`.  Verifies
entitlement, then fetches the Discourse user; on ANY `getUser` rejection it
falls into the `.catch` and provisions: member-API profile fetch, then
`createUser(firstName + " " + lastName, user.handle, user.email,
config.defaultDiscoursePw)`.  `getUser` is issued with
`api_username=<username>` (the actor); `createUser` carries the client default
`api_username` (the system identity). -/
def provisionLog2 (env : RunEnv) (handle reference referenceId : String) : List Call :=
  (userHasAccessToEntity env.ent reference referenceId).2 ++ [.discourseGetUser handle handle]

def provisionLog3 (env : RunEnv) (handle reference referenceId : String) : List Call :=
  provisionLog2 env handle reference referenceId ++ [.memberApiGet handle]

def provisionLog4 (env : RunEnv) (handle reference referenceId : String)
    (firstName lastName mHandle email : String) : List Call :=
  provisionLog3 env handle reference referenceId
    ++ [.discourseCreateUser (firstName ++ " " ++ lastName) mHandle email
      defaultDiscoursePw env.discourseSystemUsername]

def checkAccessAndProvision (env : RunEnv) (handle reference referenceId : String) :
    ProvisionOutcome × List Call :=
  if !(userHasAccessToEntity env.ent reference referenceId).1 then
    (.denied, (userHasAccessToEntity env.ent reference referenceId).2)
  else
    match env.getUser with
    | .ok user => (.ok user, provisionLog2 env handle reference referenceId)
    | _ =>
      match env.member with
      | .err => (.failed, provisionLog3 env handle reference referenceId)
      | .ok firstName lastName mHandle email =>
        match env.createUser with
        | .transportError =>
          (.failed, provisionLog4 env handle reference referenceId firstName lastName mHandle email)
        | .ok data =>
          if (data.get "success").truthy then
            (.ok data, provisionLog4 env handle reference referenceId firstName lastName mHandle email)
          else
            (.failed, provisionLog4 env handle reference referenceId firstName lastName mHandle email)

/-- A row of the `topics` table (the ThreadMapping).  `discourseTopicId`
stores whatever `response.data.topic_id` evaluated to.  The two timestamp
audit columns (`createdAt`, `updatedAt`), set to `new Date()` at build time,
are not modelled. -/
structure Topic where
  reference : String
  referenceId : String
  discourseTopicId : Json
  createdBy : String
  updatedBy : String
deriving Repr

/-- String-valued columns of a `topics` row that a parsed query filter can be
matched against.  (`discourseTopicId` is excluded: its sequelize coercion from
a string filter value is not modelled, and no claim filters on it.) -/
def Topic.column (t : Topic) : String → Option String
  | "reference" => some t.reference
  | "referenceId" => some t.referenceId
  | "createdBy" => some t.createdBy
  | "updatedBy" => some t.updatedBy
  | _ => none

/-- A row matches a `findAll where` filter when every filter pair equals the
corresponding column. -/
def topicMatches (filter : List (String × String)) (t : Topic) : Bool :=
  filter.all (fun kv => t.column kv.1 == some kv.2)

/-- JavaScript object assignment `filter[k] = v`: overwrite the existing key
in place, else append. -/
def setKey (f : List (String × String)) (k v : String) : List (String × String) :=
  if f.any (fun p => p.1 == k) then
    f.map (fun p => if p.1 == k then (k, v) else p)
  else f ++ [(k, v)]

/-- list.js lines 152-162: split the raw filter string on `&`, and for each
segment that splits on `=` into exactly two parts assign
`filter[parts[0]] = parts[1]`; every other segment is skipped. -/
def buildFilter (queryFilter : String) : List (String × String) :=
  (jsSplit queryFilter '&').foldl
    (fun acc seg =>
      match jsSplit seg '=' with
      | [k, v] => setKey acc k v
      | _ => acc)
    []

/-- Value of a key in a parsed filter (JavaScript `filter.k`, `none` standing
for `undefined`). -/
def filterGet (f : List (String × String)) (k : String) : Option String :=
  match f.find? (fun p => p.1 == k) with
  | some p => some p.2
  | none => none

/-- Truthiness of `filter.k`: the key is present with a non-empty value. -/
def filterTruthy (f : List (String × String)) (k : String) : Bool :=
  match filterGet f k with
  | some v => v != ""
  | none => false

/-- The `api_username` the Discourse client attaches to `createPrivatePost`
(services/discourse.js, `owner ? owner : DISCOURSE_SYSTEM_USERNAME`): the
`owner` argument when passed, else the system identity. -/
def createPrivatePostApiUsername (owner : Option String) (systemUsername : String) : String :=
  match owner with
  | some o => o
  | none => systemUsername

/-- The same selection in the sibling version of the Discourse service
(`owner && !util.isDiscourseAdmin(owner) ? owner : DISCOURSE_SYSTEM_USERNAME`):
a passed owner is used only when not an admin. -/
def createPrivatePostApiUsernameV0 (isAdmin : String → Bool)
    (owner : Option String) (systemUsername : String) : String :=
  match owner with
  | some o => if !(isAdmin o) then o else systemUsername
  | none => systemUsername

/-- What the express handler sends: `resp.status(s).send(body)`. -/
structure HttpResponse where
  status : Nat
  body : Json
deriving Repr

/-- The inbound express request: the raw `filter` query parameter (absent
modelled as `none`, `req.query.filter || ""` supplying the default) and the
authenticated user handle `req.authUser.handle`. -/
structure Request where
  queryFilter : Option String
  authUserHandle : String

/-- The 400 response of the filter validation (list.js lines 164-170). -/
def validationResponse : HttpResponse :=
  { status := 400,
    body := .obj [("message",
      .str "Please provide reference and referenceId filter parameters")] }

/-- The 500 response of the final `.catch` (list.js lines 243-248). -/
def errorResponse : HttpResponse :=
  { status := 500, body := .obj [("message", .str "Error fetching topic!")] }

/-- The final `.then` of the chain (list.js line 242):
`resp.status(200).send(topic.data)`, where `topic` is whatever value the
branch resolved with. -/
def sendTopic (topic : Json) : HttpResponse :=
  { status := 200, body := topic.get "data" }

/-- The mapping-miss branch resolves with the raw axios response of
`createPrivatePost`; only its `status` and `data` fields are consumed. -/
def axiosResponseJson (status : Nat) (data : Json) : Json :=
  .obj [("status", .num status), ("data", data)]

/-- The request handler returned by list.js (lines 151-249).  Parses and
validates the filter, looks the mapping up, and runs either the
verify-and-create branch or the fetch-existing branch with its single
403-triggered reconciliation.  Returns the HTTP response sent, the updated
`topics` table, and the ordered log of external calls. -/
def handleListTopics (env : RunEnv) (db : List Topic) (req : Request) :
    HttpResponse × List Topic × List Call :=
  let filter := buildFilter (req.queryFilter.getD "")
  if !(filterTruthy filter "reference") || !(filterTruthy filter "referenceId") then
    (validationResponse, db, [])
  else
    let reference := (filterGet filter "reference").getD ""
    let referenceId := (filterGet filter "referenceId").getD ""
    let handle := req.authUserHandle
    let log0 : List Call := [.dbFindTopics filter]
    match db.filter (topicMatches filter) with
    | [] =>
      let P := checkAccessAndProvision env handle reference referenceId
      match P.1 with
      | .denied => (errorResponse, db, log0 ++ P.2)
      | .failed => (errorResponse, db, log0 ++ P.2)
      | .ok _ =>
        let title := "Discussion for " ++ reference ++ " " ++ referenceId
        let logC := log0 ++ P.2 ++ [.discourseCreatePrivatePost title title handle
          (createPrivatePostApiUsername none env.discourseSystemUsername)]
        match env.createPost with
        | .rejected => (errorResponse, db, logC)
        | .ok status data =>
          if status == 200 then
            let row : Topic :=
              { reference := reference, referenceId := referenceId,
                discourseTopicId := data.get "topic_id",
                createdBy := handle, updatedBy := handle }
            let logS := logC ++ [.dbSaveTopic reference referenceId
              (data.get "topic_id") handle handle]
            if env.dbSaveOk then
              (sendTopic (axiosResponseJson status data), db ++ [row], logS)
            else (errorResponse, db, logS)
          else (errorResponse, db, logC)
    | pgTopic :: _ =>
      let logF := log0 ++ [.discourseGetTopic pgTopic.discourseTopicId handle]
      match env.getTopic1 with
      | .ok doc => (sendTopic doc, db, logF)
      | .otherError => (errorResponse, db, logF)
      | .forbidden403 =>
        let P := checkAccessAndProvision env handle reference referenceId
        match P.1 with
        | .denied => (errorResponse, db, logF ++ P.2)
        | .failed => (errorResponse, db, logF ++ P.2)
        | .ok _ =>
          let logG := logF ++ P.2 ++ [.discourseGrantAccess handle
            pgTopic.discourseTopicId env.discourseSystemUsername]
          if !env.grantOk then (errorResponse, db, logG)
          else
            let logF2 := logG ++ [.discourseGetTopic pgTopic.discourseTopicId handle]
            match env.getTopic2 with
            | .ok doc => (sendTopic doc, db, logF2)
            | _ => (errorResponse, db, logF2)

/-- Is this call a `getTopic` fetch? -/
def Call.isGetTopic : Call → Bool
  | .discourseGetTopic _ _ => true
  | _ => false

/-- Is this call a `grantAccess`? -/
def Call.isGrantAccess : Call → Bool
  | .discourseGrantAccess _ _ _ => true
  | _ => false

/-- Is this call a `createPrivatePost` (remote thread creation)? -/
def Call.isCreatePrivatePost : Call → Bool
  | .discourseCreatePrivatePost _ _ _ _ => true
  | _ => false

/-- Is this call a Discourse `createUser`? -/
def Call.isCreateUser : Call → Bool
  | .discourseCreateUser _ _ _ _ _ => true
  | _ => false

/-- Is this call a Discourse `getUser`? -/
def Call.isGetUser : Call → Bool
  | .discourseGetUser _ _ => true
  | _ => false

/-- Is this call a GET against an authorization endpoint? -/
def Call.isEntitlementCheck : Call → Bool
  | .entitlementCheck _ => true
  | _ => false

/-- Number of calls in a log satisfying a predicate. -/
def countCalls (p : Call → Bool) (log : List Call) : Nat :=
  (log.filter p).length

/-- The segments of the raw filter string that split on `=` into exactly two
parts, as key/value pairs, in order. -/
def wellFormedPairs (queryFilter : String) : List (String × String) :=
  (jsSplit queryFilter '&').filterMap (fun seg =>
    match jsSplit seg '=' with
    | [k, v] => some (k, v)
    | _ => none)

/-!  Concrete environments shared by several witnesses and counterexamples. -/

/-- Entitlement environment whose one configured route answers HTTP 201 with a
well-shaped granting body. -/
def c1Env : EntitlementEnv :=
  { routeFor := fun r => if r == "project" then some "http://api/projects/{id}" else none,
    httpFor := fun _ => .response 201
      (.obj [("result", .obj [("status", .num 200), ("content", .str "granted")])]) }

/-- Entitlement environment whose one configured route times out. -/
def c1DenyEnv : EntitlementEnv :=
  { routeFor := fun r => if r == "project" then some "http://api/projects/{id}" else none,
    httpFor := fun _ => .timeout }

/-- Run environment in which every remote call fails; used where no remote
call should matter. -/
def quietEnv : RunEnv :=
  { discourseSystemUsername := "system_user",
    routeFor := fun _ => none,
    httpFor := fun _ => .timeout,
    getUser := .otherError,
    member := .err,
    createUser := .transportError,
    createPost := .rejected,
    getTopic1 := .otherError,
    getTopic2 := .otherError,
    grantOk := false,
    dbSaveOk := false }

/-- Run environment of the concrete scenario of claim C7: entitlement endpoint
for "project" answers 200 with `result.status = 200` and empty-object content,
the Discourse user is absent and gets provisioned, thread creation answers 200
with `topic_id` 5189, and the mapping save succeeds. -/
def scenarioAEnv : RunEnv :=
  { discourseSystemUsername := "system_user",
    routeFor := fun r => if r == "project" then some "http://api/projects/{id}" else none,
    httpFor := fun _ => .response 200
      (.obj [("result", .obj [("status", .num 200), ("content", .obj [])])]),
    getUser := .notFound,
    member := .ok "Mary" "Jones" "mjones" "mjones@example.com",
    createUser := .ok (.obj [("success", .bool true)]),
    createPost := .ok 200 (.obj [("topic_id", .num 5189)]),
    getTopic1 := .ok (.obj [("id", .num 5189)]),
    getTopic2 := .ok .undefined,
    grantOk := true,
    dbSaveOk := true }

/-- The concrete request of claim C7: `referenceType "project"`,
`referenceId "42"`, acting user "mjones". -/
def scenarioAReq : Request :=
  { queryFilter := some "reference=project&referenceId=42", authUserHandle := "mjones" }

/-- The `topics` row the concrete scenario persists. -/
def scenarioARow : Topic :=
  { reference := "project", referenceId := "42", discourseTopicId := .num 5189,
    createdBy := "mjones", updatedBy := "mjones" }

/-! ## Claims -/

/-- C1, counterexample to the claim as stated: with a configured
AuthorizationRoute and the endpoint answering HTTP 201 — a non-200 status —
with a well-shaped body, `userHasAccessToEntity` resolves `true` (axios with
its default `validateStatus` fulfils on any 2xx), so a non-200 HTTP status
does not imply deny. -/
theorem C1_counterexample :
    (userHasAccessToEntity c1Env "project" "42").1 = true ∧ (201 : Nat) ≠ 200 :=
  ⟨rfl, by decide⟩

/-- C1 (amended): for every referenceType with a configured
AuthorizationRoute, `userHasAccessToEntity` returns deny (false) whenever the
authorization endpoint times out, the request fails at the transport level,
the HTTP status is outside the 2xx success range accepted by axios, or the
response body lacks a nested result object with status == 200 and truthy
content; under none of these conditions does it return grant (true). -/
theorem C1_fail_closed (env : EntitlementEnv) (reference referenceId endpoint : String)
    (hroute : env.routeFor reference = some endpoint)
    (hdeny : env.httpFor (replaceFirst endpoint "{id}" referenceId) = .timeout ∨
      env.httpFor (replaceFirst endpoint "{id}" referenceId) = .transportError ∨
      (∀ s data, env.httpFor (replaceFirst endpoint "{id}" referenceId) = .response s data →
        s < 200 ∨ 300 ≤ s ∨ entitlementBodyGrants data = false)) :
    (userHasAccessToEntity env reference referenceId).1 = false := by
  unfold userHasAccessToEntity
  rw [hroute]
  dsimp only
  cases hout : env.httpFor (replaceFirst endpoint "{id}" referenceId) with
  | timeout => rfl
  | transportError => rfl
  | response s data =>
    have hgrants : ¬(200 ≤ s ∧ s < 300) ∨ entitlementBodyGrants data = false := by
      rcases hdeny with h | h | h
      · rw [hout] at h; cases h
      · rw [hout] at h; cases h
      · rcases h s data hout with h' | h' | h'
        · exact Or.inl (by omega)
        · exact Or.inl (by omega)
        · exact Or.inr h'
    rcases hgrants with h | h
    · simp only [axiosFulfills, if_neg h]
    · simp only [axiosFulfills]
      by_cases hs : 200 ≤ s ∧ s < 300
      · rw [if_pos hs]; exact h
      · rw [if_neg hs]

/-- C1 witness: a configured route whose endpoint times out is denied. -/
theorem C1_fail_closed_witness :
    c1DenyEnv.routeFor "project" = some "http://api/projects/{id}" ∧
    (userHasAccessToEntity c1DenyEnv "project" "42").1 = false :=
  ⟨rfl, C1_fail_closed c1DenyEnv "project" "42" "http://api/projects/{id}" rfl (Or.inl rfl)⟩

/-- C4: for a referenceType with no configured AuthorizationRoute,
`userHasAccessToEntity` resolves grant (true) for every referenceId and every
behaviour of the authorization endpoint, and issues no endpoint call at all
(empty call log), so the decision is independent of endpoint availability. -/
theorem C4_default_allow (env : EntitlementEnv) (reference referenceId : String)
    (hroute : env.routeFor reference = none) :
    userHasAccessToEntity env reference referenceId = (true, []) := by
  unfold userHasAccessToEntity
  rw [hroute]

/-- C4 witness: with no route configured and an endpoint that would time out,
access is granted and no endpoint call is made. -/
theorem C4_default_allow_witness :
    userHasAccessToEntity { routeFor := fun _ => none, httpFor := fun _ => .timeout }
      "submission" "9" = (true, []) :=
  C4_default_allow { routeFor := fun _ => none, httpFor := fun _ => .timeout } "submission" "9" rfl

/-- C8: a request whose parsed filter lacks `reference` or lacks
`referenceId` is answered with the 400 validation response and its
human-readable message, the topics table is untouched, and no call of any
kind — database lookup, entitlement check, Discourse or member-API call — is
issued. -/
theorem C8_validation (env : RunEnv) (db : List Topic) (req : Request)
    (hmiss : filterGet (buildFilter (req.queryFilter.getD "")) "reference" = none ∨
      filterGet (buildFilter (req.queryFilter.getD "")) "referenceId" = none) :
    handleListTopics env db req = (validationResponse, db, []) := by
  unfold handleListTopics
  rcases hmiss with h | h
  · simp [filterTruthy, h]
  · simp [filterTruthy, h]

/-- C8 witness: a request carrying only `reference=project` gets the 400
response and issues no calls, in an environment where every remote call would
fail. -/
theorem C8_validation_witness :
    handleListTopics quietEnv []
      { queryFilter := some "reference=project", authUserHandle := "mjones" } =
      (validationResponse, [], []) :=
  C8_validation quietEnv [] _ (Or.inr rfl)

/-- The foldl over all `&`-segments with the inline well-formedness match
equals the foldl over just the well-formed pairs. -/
theorem buildFilter_aux (segs : List String) (acc : List (String × String)) :
    segs.foldl (fun acc seg => match jsSplit seg '=' with | [k, v] => setKey acc k v | _ => acc) acc
      = (segs.filterMap (fun seg => match jsSplit seg '=' with | [k, v] => some (k, v) | _ => none)).foldl
          (fun acc p => setKey acc p.1 p.2) acc := by
  induction segs generalizing acc with
  | nil => rfl
  | cons s rest ih =>
    rw [List.foldl_cons, List.filterMap_cons]
    cases hs : jsSplit s '=' with
    | nil => simpa using ih acc
    | cons k tl =>
      cases tl with
      | nil => simpa using ih acc
      | cons v tl2 =>
        cases tl2 with
        | nil => simpa using ih (setKey acc k v)
        | cons w tl3 => simpa using ih acc

/-- C10: the mapping-lookup filter is built exactly from the `&`-separated
segments of the query filter string that split into exactly two parts on `=`:
it equals the fold that assigns each such key/value pair verbatim (later
assignments to the same key overwriting, as for a JavaScript object), and
segments with zero or more than one `=` contribute nothing. -/
theorem C10_filter_built_from_pairs (q : String) :
    buildFilter q = (wellFormedPairs q).foldl (fun acc p => setKey acc p.1 p.2) [] := by
  unfold buildFilter wellFormedPairs
  exact buildFilter_aux (jsSplit q '&') []

/-- C7: on a request for `reference "project"`, `referenceId "42"` with no
existing mapping and the entitlement endpoint answering
`result.status = 200` with (empty-object, hence truthy) content, the
orchestrator checks the entitlement endpoint, provisions the absent Discourse
user, creates a private post titled and bodied exactly
"Discussion for project 42", persists the mapping with the returned
`topic_id`, and answers 200 with the created thread. -/
theorem C7_scenario_A :
    handleListTopics scenarioAEnv [] scenarioAReq =
      ({ status := 200, body := .obj [("topic_id", .num 5189)] },
       [scenarioARow],
       [.dbFindTopics [("reference", "project"), ("referenceId", "42")],
        .entitlementCheck "http://api/projects/42",
        .discourseGetUser "mjones" "mjones",
        .memberApiGet "mjones",
        .discourseCreateUser "Mary Jones" "mjones" "mjones@example.com"
          defaultDiscoursePw "system_user",
        .discourseCreatePrivatePost "Discussion for project 42"
          "Discussion for project 42" "mjones" "system_user",
        .dbSaveTopic "project" "42" (.num 5189) "mjones" "mjones"]) := rfl

/-- Attribution discipline of a single call: thread creation, access grants
and user creation carry the system identity as `api_username`; topic fetches
carry the acting user; a user fetch is issued as the user being fetched. -/
def attributionOk (systemUsername actor : String) : Call → Bool
  | .discourseCreatePrivatePost _ _ _ a => a == systemUsername
  | .discourseGetTopic _ a => a == actor
  | .discourseGrantAccess _ _ a => a == systemUsername
  | .discourseCreateUser _ _ _ _ a => a == systemUsername
  | .discourseGetUser u a => a == u
  | _ => true

/-- Every call issued by the entitlement check satisfies the attribution
discipline (it only ever issues endpoint GETs). -/
theorem ent_log_attribution (sys actor : String) (e : EntitlementEnv) (r i : String) :
    ((userHasAccessToEntity e r i).2).all (attributionOk sys actor) = true := by
  unfold userHasAccessToEntity
  cases e.routeFor r with
  | none => rfl
  | some endpoint =>
    dsimp only
    cases axiosFulfills (e.httpFor (replaceFirst endpoint "{id}" i)) <;> rfl

/-- Every call issued by `checkAccessAndProvision` satisfies the attribution
discipline. -/
theorem prov_log_attribution (env : RunEnv) (h r i : String) :
    ((checkAccessAndProvision env h r i).2).all
      (attributionOk env.discourseSystemUsername h) = true := by
  have hent := ent_log_attribution env.discourseSystemUsername h env.ent r i
  unfold checkAccessAndProvision
  by_cases hA : (userHasAccessToEntity env.ent r i).1
  · rw [hA]
    cases env.getUser with
    | ok user => simp [provisionLog2, List.all_append, hent, attributionOk]
    | notFound =>
      cases env.member with
      | err => simp [provisionLog3, provisionLog2, List.all_append, hent, attributionOk]
      | ok fn ln mh em =>
        cases env.createUser with
        | transportError =>
          simp [provisionLog4, provisionLog3, provisionLog2, List.all_append, hent, attributionOk]
        | ok data =>
          by_cases hsucc : (data.get "success").truthy <;>
            simp [provisionLog4, provisionLog3, provisionLog2, List.all_append, hent,
              attributionOk, hsucc]
    | otherError =>
      cases env.member with
      | err => simp [provisionLog3, provisionLog2, List.all_append, hent, attributionOk]
      | ok fn ln mh em =>
        cases env.createUser with
        | transportError =>
          simp [provisionLog4, provisionLog3, provisionLog2, List.all_append, hent, attributionOk]
        | ok data =>
          by_cases hsucc : (data.get "success").truthy <;>
            simp [provisionLog4, provisionLog3, provisionLog2, List.all_append, hent,
              attributionOk, hsucc]
  · simp only [Bool.not_eq_true] at hA
    rw [hA]
    simpa using hent

/-- C9, counterexample to the claim as stated: in the concrete creation run
on behalf of non-privileged actor "mjones", the one thread-creation request
emitted carries `api_username "system_user"` (the designated system identity,
because the orchestrator passes no owner argument), not the actor's handle —
so thread creation on behalf of an actor is NOT attributed to the actor. -/
theorem C9_counterexample :
    ((handleListTopics scenarioAEnv [] scenarioAReq).2.2.filter Call.isCreatePrivatePost =
      [.discourseCreatePrivatePost "Discussion for project 42" "Discussion for project 42"
        "mjones" "system_user"])
    ∧ scenarioAReq.authUserHandle = "mjones" ∧ "system_user" ≠ "mjones" :=
  ⟨rfl, rfl, by decide⟩

/-- C9 (amended): in every run, topic fetches are attributed to the acting
user (`api_username` equals the actor's handle) and user fetches to the
fetched user, while thread creation (whose call site passes no owner
argument), access grants, and user creation are attributed to the designated
system identity; both versions of the Discourse service select the system
identity for `createPrivatePost` when no owner is passed. -/
theorem C9_attribution (env : RunEnv) (db : List Topic) (req : Request) :
    ((handleListTopics env db req).2.2).all
      (attributionOk env.discourseSystemUsername req.authUserHandle) = true
    ∧ (∀ isAdmin sys, createPrivatePostApiUsernameV0 isAdmin none sys = sys)
    ∧ (∀ sys, createPrivatePostApiUsername none sys = sys) := by
  refine ⟨?_, fun _ _ => rfl, fun _ => rfl⟩
  have hprov := prov_log_attribution env req.authUserHandle
  simp only [handleListTopics]
  split
  · rfl
  · split <;> (try split) <;> (try split) <;> (try split) <;> (try split) <;>
      simp [List.all_append, hprov, attributionOk, createPrivatePostApiUsername]

/-- Counting distributes over concatenated logs. -/
theorem countCalls_append (p : Call → Bool) (a b : List Call) :
    countCalls p (a ++ b) = countCalls p a + countCalls p b := by
  simp [countCalls, List.filter_append]

/-- A log none of whose calls satisfies the predicate counts zero. -/
theorem countCalls_eq_zero (p : Call → Bool) (log : List Call)
    (h : ∀ c ∈ log, p c = false) : countCalls p log = 0 := by
  induction log with
  | nil => rfl
  | cons c cs ih =>
    have hc := h c (List.mem_cons_self c cs)
    simp only [countCalls, List.filter_cons, hc, cond_false]
    exact ih (fun d hd => h d (List.mem_cons_of_mem c hd))

/-- A call that is neither a topic fetch, nor a grant, nor a thread
creation. -/
def noThreadOps (c : Call) : Bool :=
  !c.isGetTopic && !c.isGrantAccess && !c.isCreatePrivatePost

/-- The entitlement check issues no topic fetch, grant, or thread creation. -/
theorem ent_log_no_thread_ops (e : EntitlementEnv) (r i : String) :
    ((userHasAccessToEntity e r i).2).all noThreadOps = true := by
  unfold userHasAccessToEntity
  cases e.routeFor r with
  | none => rfl
  | some endpoint =>
    dsimp only
    cases axiosFulfills (e.httpFor (replaceFirst endpoint "{id}" i)) <;> rfl

/-- `checkAccessAndProvision` issues no topic fetch, grant, or thread
creation. -/
theorem prov_log_no_thread_ops (env : RunEnv) (h r i : String) :
    ((checkAccessAndProvision env h r i).2).all noThreadOps = true := by
  have hent := ent_log_no_thread_ops env.ent r i
  unfold checkAccessAndProvision
  by_cases hA : (userHasAccessToEntity env.ent r i).1
  · rw [hA]
    cases env.getUser with
    | ok user =>
      simp [provisionLog2, List.all_append, hent, noThreadOps, Call.isGetTopic,
        Call.isGrantAccess, Call.isCreatePrivatePost]
    | notFound =>
      cases env.member with
      | err =>
        simp [provisionLog3, provisionLog2, List.all_append, hent, noThreadOps,
          Call.isGetTopic, Call.isGrantAccess, Call.isCreatePrivatePost]
      | ok fn ln mh em =>
        cases env.createUser with
        | transportError =>
          simp [provisionLog4, provisionLog3, provisionLog2, List.all_append, hent, noThreadOps,
            Call.isGetTopic, Call.isGrantAccess, Call.isCreatePrivatePost]
        | ok data =>
          by_cases hsucc : (data.get "success").truthy <;>
            simp [provisionLog4, provisionLog3, provisionLog2, List.all_append, hent, noThreadOps,
              Call.isGetTopic, Call.isGrantAccess, Call.isCreatePrivatePost, hsucc]
    | otherError =>
      cases env.member with
      | err =>
        simp [provisionLog3, provisionLog2, List.all_append, hent, noThreadOps,
          Call.isGetTopic, Call.isGrantAccess, Call.isCreatePrivatePost]
      | ok fn ln mh em =>
        cases env.createUser with
        | transportError =>
          simp [provisionLog4, provisionLog3, provisionLog2, List.all_append, hent, noThreadOps,
            Call.isGetTopic, Call.isGrantAccess, Call.isCreatePrivatePost]
        | ok data =>
          by_cases hsucc : (data.get "success").truthy <;>
            simp [provisionLog4, provisionLog3, provisionLog2, List.all_append, hent, noThreadOps,
              Call.isGetTopic, Call.isGrantAccess, Call.isCreatePrivatePost, hsucc]
  · simp only [Bool.not_eq_true] at hA
    rw [hA]
    simpa using hent

/-- The provisioning step contributes no topic fetch, no grant, and no thread
creation to the call log. -/
theorem prov_counts_zero (env : RunEnv) (h r i : String) :
    countCalls Call.isGetTopic (checkAccessAndProvision env h r i).2 = 0 ∧
    countCalls Call.isGrantAccess (checkAccessAndProvision env h r i).2 = 0 ∧
    countCalls Call.isCreatePrivatePost (checkAccessAndProvision env h r i).2 = 0 := by
  have hall := prov_log_no_thread_ops env h r i
  rw [List.all_eq_true] at hall
  refine ⟨countCalls_eq_zero _ _ ?_, countCalls_eq_zero _ _ ?_, countCalls_eq_zero _ _ ?_⟩ <;>
    intro c hc <;> have hx := hall c hc <;> simp [noThreadOps] at hx <;> tauto

/-- The entitlement check issues no Discourse user fetch. -/
theorem ent_getUser_zero (e : EntitlementEnv) (r i : String) :
    countCalls Call.isGetUser (userHasAccessToEntity e r i).2 = 0 := by
  unfold userHasAccessToEntity
  cases e.routeFor r with
  | none => rfl
  | some endpoint =>
    dsimp only
    cases axiosFulfills (e.httpFor (replaceFirst endpoint "{id}" i)) <;> rfl

/-- A provisioning run that resolves with a user fetched the Discourse user
exactly once. -/
theorem prov_getUser_once_of_ok (env : RunEnv) (h r i : String) (u : Json)
    (hok : (checkAccessAndProvision env h r i).1 = .ok u) :
    countCalls Call.isGetUser (checkAccessAndProvision env h r i).2 = 1 := by
  have hent := ent_getUser_zero env.ent r i
  simp only [countCalls] at hent
  unfold checkAccessAndProvision at hok ⊢
  by_cases hA : (userHasAccessToEntity env.ent r i).1
  · rw [hA] at hok ⊢
    cases hgu : env.getUser with
    | ok user =>
      simp [provisionLog2, countCalls, List.filter_append, hent, Call.isGetUser]
    | notFound =>
      rw [hgu] at hok
      cases hm : env.member with
      | err => rw [hm] at hok; simp at hok
      | ok fn ln mh em =>
        rw [hm] at hok
        cases hcu : env.createUser with
        | transportError => rw [hcu] at hok; simp at hok
        | ok data =>
          rw [hcu] at hok
          by_cases hsucc : (data.get "success").truthy
          · simp [provisionLog4, provisionLog3, provisionLog2, countCalls,
              List.filter_append, hent, Call.isGetUser, hsucc]
          · simp only [Bool.not_eq_true] at hsucc
            simp [hsucc] at hok
    | otherError =>
      rw [hgu] at hok
      cases hm : env.member with
      | err => rw [hm] at hok; simp at hok
      | ok fn ln mh em =>
        rw [hm] at hok
        cases hcu : env.createUser with
        | transportError => rw [hcu] at hok; simp at hok
        | ok data =>
          rw [hcu] at hok
          by_cases hsucc : (data.get "success").truthy
          · simp [provisionLog4, provisionLog3, provisionLog2, countCalls,
              List.filter_append, hent, Call.isGetUser, hsucc]
          · simp only [Bool.not_eq_true] at hsucc
            simp [hsucc] at hok
  · simp only [Bool.not_eq_true] at hA
    rw [hA] at hok
    simp at hok

/-- The empty log counts zero. -/
theorem countCalls_nil (p : Call → Bool) : countCalls p [] = 0 := rfl

/-- Unfolding one call off the front of a counted log. -/
theorem countCalls_cons (p : Call → Bool) (c : Call) (log : List Call) :
    countCalls p (c :: log) = (if p c then 1 else 0) + countCalls p log := by
  by_cases h : p c = true
  · simp [countCalls, List.filter_cons, h]
    omega
  · simp [countCalls, List.filter_cons, h]

/-- C2: on a request whose mapping exists, when the first topic fetch comes
back 403, the orchestrator runs the reconciliation — entitlement re-check and
user provisioning (exactly one Discourse user fetch), one access grant — and
retries the fetch exactly once; a 403 on the retried fetch ends the run with
the 500 failure response.  The full call log is exhibited: exactly two topic
fetches, exactly one grant, no thread creation, and no further loop. -/
theorem C2_reconcile_once (env : RunEnv) (db : List Topic) (req : Request)
    (pgTopic : Topic) (rest : List Topic) (u : Json)
    (hval : (!(filterTruthy (buildFilter (req.queryFilter.getD "")) "reference") ||
      !(filterTruthy (buildFilter (req.queryFilter.getD "")) "referenceId")) = false)
    (hfound : db.filter (topicMatches (buildFilter (req.queryFilter.getD ""))) = pgTopic :: rest)
    (h403a : env.getTopic1 = .forbidden403)
    (hprovOk : (checkAccessAndProvision env req.authUserHandle
        ((filterGet (buildFilter (req.queryFilter.getD "")) "reference").getD "")
        ((filterGet (buildFilter (req.queryFilter.getD "")) "referenceId").getD "")).1
        = .ok u)
    (hgrant : env.grantOk = true)
    (h403b : env.getTopic2 = .forbidden403) :
    handleListTopics env db req = (errorResponse, db,
      .dbFindTopics (buildFilter (req.queryFilter.getD "")) ::
      .discourseGetTopic pgTopic.discourseTopicId req.authUserHandle ::
      ((checkAccessAndProvision env req.authUserHandle
          ((filterGet (buildFilter (req.queryFilter.getD "")) "reference").getD "")
          ((filterGet (buildFilter (req.queryFilter.getD "")) "referenceId").getD "")).2 ++
        [.discourseGrantAccess req.authUserHandle pgTopic.discourseTopicId
            env.discourseSystemUsername,
          .discourseGetTopic pgTopic.discourseTopicId req.authUserHandle]))
    ∧ countCalls Call.isGetTopic (handleListTopics env db req).2.2 = 2
    ∧ countCalls Call.isGrantAccess (handleListTopics env db req).2.2 = 1
    ∧ countCalls Call.isCreatePrivatePost (handleListTopics env db req).2.2 = 0
    ∧ countCalls Call.isGetUser (handleListTopics env db req).2.2 = 1 := by
  have hmain : handleListTopics env db req = (errorResponse, db,
      .dbFindTopics (buildFilter (req.queryFilter.getD "")) ::
      .discourseGetTopic pgTopic.discourseTopicId req.authUserHandle ::
      ((checkAccessAndProvision env req.authUserHandle
          ((filterGet (buildFilter (req.queryFilter.getD "")) "reference").getD "")
          ((filterGet (buildFilter (req.queryFilter.getD "")) "referenceId").getD "")).2 ++
        [.discourseGrantAccess req.authUserHandle pgTopic.discourseTopicId
            env.discourseSystemUsername,
          .discourseGetTopic pgTopic.discourseTopicId req.authUserHandle])) := by
    simp only [handleListTopics, hval, hfound, h403a, hprovOk, hgrant]
    simp [h403b]
  have hz := prov_counts_zero env req.authUserHandle
    ((filterGet (buildFilter (req.queryFilter.getD "")) "reference").getD "")
    ((filterGet (buildFilter (req.queryFilter.getD "")) "referenceId").getD "")
  have hgu := prov_getUser_once_of_ok env req.authUserHandle
    ((filterGet (buildFilter (req.queryFilter.getD "")) "reference").getD "")
    ((filterGet (buildFilter (req.queryFilter.getD "")) "referenceId").getD "") u hprovOk
  refine ⟨hmain, ?_, ?_, ?_, ?_⟩ <;> rw [hmain] <;>
    simp only [countCalls_cons, countCalls_append, countCalls_nil] <;>
    simp [Call.isGetTopic, Call.isGrantAccess, Call.isCreatePrivatePost, Call.isGetUser,
      hz.1, hz.2.1, hz.2.2, hgu]

/-- Run environment of the reconciliation scenario: mapping present, first
topic fetch 403, entitlement trivially granted (no route), Discourse user
exists, grant succeeds, retried fetch 403 again. -/
def reconcileEnv : RunEnv :=
  { discourseSystemUsername := "system_user",
    routeFor := fun _ => none,
    httpFor := fun _ => .timeout,
    getUser := .ok (.obj [("username", .str "mjones")]),
    member := .err,
    createUser := .transportError,
    createPost := .rejected,
    getTopic1 := .forbidden403,
    getTopic2 := .forbidden403,
    grantOk := true,
    dbSaveOk := false }

/-- The existing mapping of the reconciliation scenario. -/
def challengeRow : Topic :=
  { reference := "challenge", referenceId := "7", discourseTopicId := .str "t123",
    createdBy := "mjones", updatedBy := "mjones" }

/-- The request of the reconciliation scenario. -/
def challengeReq : Request :=
  { queryFilter := some "reference=challenge&referenceId=7", authUserHandle := "mjones" }

/-- C2 witness: the concrete double-403 run ends in the 500 failure with
exactly two fetches and one grant. -/
theorem C2_reconcile_once_witness :
    handleListTopics reconcileEnv [challengeRow] challengeReq = (errorResponse, [challengeRow],
      [.dbFindTopics [("reference", "challenge"), ("referenceId", "7")],
       .discourseGetTopic (.str "t123") "mjones",
       .discourseGetUser "mjones" "mjones",
       .discourseGrantAccess "mjones" (.str "t123") "system_user",
       .discourseGetTopic (.str "t123") "mjones"])
    ∧ countCalls Call.isGetTopic
        (handleListTopics reconcileEnv [challengeRow] challengeReq).2.2 = 2
    ∧ countCalls Call.isGrantAccess
        (handleListTopics reconcileEnv [challengeRow] challengeReq).2.2 = 1
    ∧ countCalls Call.isCreatePrivatePost
        (handleListTopics reconcileEnv [challengeRow] challengeReq).2.2 = 0
    ∧ countCalls Call.isGetUser
        (handleListTopics reconcileEnv [challengeRow] challengeReq).2.2 = 1 :=
  C2_reconcile_once reconcileEnv [challengeRow] challengeReq challengeRow []
    (.obj [("username", .str "mjones")]) rfl rfl rfl rfl rfl rfl

/-- C6: the topics table is written only on the mapping-miss path when the
remote creation answered status 200 and the save fulfils, and then exactly by
appending the one new row (existing rows, and in particular their thread ids,
are untouched); on every other path — mapping hit, 403 reconciliation, and
every failure outcome including a non-200 creation status — the table is
returned unchanged. -/
theorem C6_mapping_frame (env : RunEnv) (db : List Topic) (req : Request) :
    (handleListTopics env db req).2.1 = db ∨
    (∃ data, env.createPost = .ok 200 data ∧ env.dbSaveOk = true ∧
      db.filter (topicMatches (buildFilter (req.queryFilter.getD ""))) = [] ∧
      (handleListTopics env db req).2.1 = db ++ [{
        reference := (filterGet (buildFilter (req.queryFilter.getD "")) "reference").getD "",
        referenceId := (filterGet (buildFilter (req.queryFilter.getD "")) "referenceId").getD "",
        discourseTopicId := data.get "topic_id",
        createdBy := req.authUserHandle, updatedBy := req.authUserHandle }]) := by
  simp only [handleListTopics]
  split
  · left; rfl
  · split
    · rename_i hnil
      split
      · left; rfl
      · left; rfl
      · split
        · left; rfl
        · rename_i status data heq
          split
          · rename_i hstatus
            split
            · rename_i hsave
              right
              have h200 : status = 200 := by simpa using hstatus
              subst h200
              exact ⟨data, heq, hsave, hnil, rfl⟩
            · left; rfl
          · left; rfl
    · split
      · left; rfl
      · left; rfl
      · split
        · left; rfl
        · left; rfl
        · split
          · left; rfl
          · split <;> (left; rfl)

/-- Environment of a second run against the mapping persisted by the scenario
run: the topic now exists, and fetching it succeeds with the topic document
(which, like a real Discourse topic document, has no `data` field). -/
def secondRunEnv : RunEnv :=
  { scenarioAEnv with
    getTopic1 := .ok (.obj [("id", .num 5189), ("title", .str "Discussion for project 42")]) }

/-- C3, evaluation at the failing input: the first run creates thread 5189 and
persists the mapping; the second run with the persisted mapping issues no
thread creation and exactly one topic fetch addressed to that same thread —
but the handler then sends `topic.data` of the already-unwrapped topic
document (the Discourse client resolves `response.data` for `getTopic`), so
the second 200 response body is `undefined` and the threadId is not returned
to the caller. -/
theorem C3_second_run_evaluation :
    (handleListTopics scenarioAEnv [] scenarioAReq).1 =
      { status := 200, body := .obj [("topic_id", .num 5189)] }
    ∧ (handleListTopics scenarioAEnv [] scenarioAReq).2.1 = [scenarioARow]
    ∧ countCalls Call.isCreatePrivatePost
        (handleListTopics secondRunEnv [scenarioARow] scenarioAReq).2.2 = 0
    ∧ countCalls Call.isGetTopic
        (handleListTopics secondRunEnv [scenarioARow] scenarioAReq).2.2 = 1
    ∧ (handleListTopics secondRunEnv [scenarioARow] scenarioAReq).2.2 =
        [.dbFindTopics [("reference", "project"), ("referenceId", "42")],
         .discourseGetTopic (.num 5189) "mjones"]
    ∧ (handleListTopics secondRunEnv [scenarioARow] scenarioAReq).1 =
        { status := 200, body := .undefined } :=
  ⟨rfl, rfl, rfl, rfl, rfl, rfl⟩

/-- The scenario environment with a Discourse user fetch that fails for a
reason other than "not found" (a 5xx or transport-level rejection). -/
def getUserFailEnv : RunEnv := { scenarioAEnv with getUser := .otherError }

/-- C5, counterexample to the claim as stated: when `getUser` rejects with a
failure that is NOT the 404 not-found (modelled by `otherError`), the
provisioning step still issues a CreateUser call — the `.catch` treats every
rejection as "user does not exist" — so creation is not restricted to the
not-found failure. -/
theorem C5_counterexample :
    getUserFailEnv.getUser = GetUserOutcome.otherError
    ∧ countCalls Call.isCreateUser
        (checkAccessAndProvision getUserFailEnv "mjones" "project" "42").2 = 1 :=
  ⟨rfl, rfl⟩

/-- The entitlement check issues no Discourse user creation. -/
theorem ent_createUser_zero (e : EntitlementEnv) (r i : String) :
    countCalls Call.isCreateUser (userHasAccessToEntity e r i).2 = 0 := by
  unfold userHasAccessToEntity
  cases e.routeFor r with
  | none => rfl
  | some endpoint =>
    dsimp only
    cases axiosFulfills (e.httpFor (replaceFirst endpoint "{id}" i)) <;> rfl

/-- A single provisioning run issues at most one user creation. -/
theorem prov_createUser_le_one (env : RunEnv) (h r i : String) :
    countCalls Call.isCreateUser (checkAccessAndProvision env h r i).2 ≤ 1 := by
  have hent := ent_createUser_zero env.ent r i
  simp only [countCalls] at hent
  unfold checkAccessAndProvision
  by_cases hA : (userHasAccessToEntity env.ent r i).1
  · rw [hA]
    cases env.getUser with
    | ok user => simp [provisionLog2, countCalls, List.filter_append, hent, Call.isCreateUser]
    | notFound =>
      cases env.member with
      | err =>
        simp [provisionLog3, provisionLog2, countCalls, List.filter_append, hent,
          Call.isCreateUser]
      | ok fn ln mh em =>
        cases env.createUser with
        | transportError =>
          simp [provisionLog4, provisionLog3, provisionLog2, countCalls, List.filter_append,
            hent, Call.isCreateUser]
        | ok data =>
          by_cases hsucc : (data.get "success").truthy <;>
            simp [provisionLog4, provisionLog3, provisionLog2, countCalls, List.filter_append,
              hent, Call.isCreateUser, hsucc]
    | otherError =>
      cases env.member with
      | err =>
        simp [provisionLog3, provisionLog2, countCalls, List.filter_append, hent,
          Call.isCreateUser]
      | ok fn ln mh em =>
        cases env.createUser with
        | transportError =>
          simp [provisionLog4, provisionLog3, provisionLog2, countCalls, List.filter_append,
            hent, Call.isCreateUser]
        | ok data =>
          by_cases hsucc : (data.get "success").truthy <;>
            simp [provisionLog4, provisionLog3, provisionLog2, countCalls, List.filter_append,
              hent, Call.isCreateUser, hsucc]
  · simp only [Bool.not_eq_true] at hA
    rw [hA]
    simp [countCalls, hent]

/-- When the Discourse user fetch succeeds, the run issues no creation. -/
theorem prov_createUser_zero_of_getUser_ok (env : RunEnv) (h r i : String) (u : Json)
    (hu : env.getUser = .ok u) :
    countCalls Call.isCreateUser (checkAccessAndProvision env h r i).2 = 0 := by
  have hent := ent_createUser_zero env.ent r i
  simp only [countCalls] at hent
  unfold checkAccessAndProvision
  by_cases hA : (userHasAccessToEntity env.ent r i).1
  · rw [hA, hu]
    simp [provisionLog2, countCalls, List.filter_append, hent, Call.isCreateUser]
  · simp only [Bool.not_eq_true] at hA
    rw [hA]
    simp [countCalls, hent]

/-- A run that ends in the entitlement-denied rejection never reached the
provisioning calls, so it issues no creation. -/
theorem prov_createUser_zero_of_denied (env : RunEnv) (h r i : String)
    (hd : (checkAccessAndProvision env h r i).1 = .denied) :
    countCalls Call.isCreateUser (checkAccessAndProvision env h r i).2 = 0 := by
  have hent := ent_createUser_zero env.ent r i
  simp only [countCalls] at hent
  unfold checkAccessAndProvision at hd ⊢
  by_cases hA : (userHasAccessToEntity env.ent r i).1
  · rw [hA] at hd ⊢
    cases hgu : env.getUser with
    | ok user => rw [hgu] at hd; simp at hd
    | notFound =>
      rw [hgu] at hd
      cases hm : env.member with
      | err => rw [hm] at hd; simp at hd
      | ok fn ln mh em =>
        rw [hm] at hd
        cases hcu : env.createUser with
        | transportError => rw [hcu] at hd; simp at hd
        | ok data =>
          rw [hcu] at hd
          by_cases hsucc : (data.get "success").truthy
          · simp [hsucc] at hd
          · simp only [Bool.not_eq_true] at hsucc
            simp [hsucc] at hd
    | otherError =>
      rw [hgu] at hd
      cases hm : env.member with
      | err => rw [hm] at hd; simp at hd
      | ok fn ln mh em =>
        rw [hm] at hd
        cases hcu : env.createUser with
        | transportError => rw [hcu] at hd; simp at hd
        | ok data =>
          rw [hcu] at hd
          by_cases hsucc : (data.get "success").truthy
          · simp [hsucc] at hd
          · simp only [Bool.not_eq_true] at hsucc
            simp [hsucc] at hd
  · simp only [Bool.not_eq_true] at hA
    rw [hA]
    simp [countCalls, hent]

/-- When creation (if attempted) succeeds, a run can end in `failed` only
before the creation call (profile resolution failure), so it issues no
creation. -/
theorem prov_createUser_zero_of_failed (env : RunEnv) (h r i : String)
    (hcreate : ∃ d, env.createUser = .ok d ∧ (d.get "success").truthy = true)
    (hf : (checkAccessAndProvision env h r i).1 = .failed) :
    countCalls Call.isCreateUser (checkAccessAndProvision env h r i).2 = 0 := by
  obtain ⟨d, hd, hds⟩ := hcreate
  have hent := ent_createUser_zero env.ent r i
  simp only [countCalls] at hent
  unfold checkAccessAndProvision at hf ⊢
  by_cases hA : (userHasAccessToEntity env.ent r i).1
  · rw [hA] at hf ⊢
    cases hgu : env.getUser with
    | ok user => rw [hgu] at hf; simp at hf
    | notFound =>
      rw [hgu] at hf
      cases hm : env.member with
      | err =>
        simp [hm, provisionLog3, provisionLog2, countCalls, List.filter_append, hent,
          Call.isCreateUser]
      | ok fn ln mh em =>
        rw [hm, hd] at hf
        simp [hds] at hf
    | otherError =>
      rw [hgu] at hf
      cases hm : env.member with
      | err =>
        simp [hm, provisionLog3, provisionLog2, countCalls, List.filter_append, hent,
          Call.isCreateUser]
      | ok fn ln mh em =>
        rw [hm, hd] at hf
        simp [hds] at hf
  · simp only [Bool.not_eq_true] at hA
    rw [hA] at hf
    simp at hf

/-- When the user fetch fails for any reason and the member profile resolves,
the run issues exactly one creation. -/
theorem prov_createUser_one_of_getUser_fail (env : RunEnv) (h r i : String)
    (hu : env.getUser = .notFound ∨ env.getUser = .otherError)
    (hA : (userHasAccessToEntity env.ent r i).1 = true)
    (fn ln mh em : String) (hm : env.member = .ok fn ln mh em) :
    countCalls Call.isCreateUser (checkAccessAndProvision env h r i).2 = 1 := by
  have hent := ent_createUser_zero env.ent r i
  simp only [countCalls] at hent
  unfold checkAccessAndProvision
  rcases hu with hu | hu
  all_goals
    rw [hA, hu, hm]
    cases hcu : env.createUser with
    | transportError =>
      simp [provisionLog4, provisionLog3, provisionLog2, countCalls, List.filter_append,
        hent, Call.isCreateUser]
    | ok data =>
      by_cases hsucc : (data.get "success").truthy <;>
        simp [provisionLog4, provisionLog3, provisionLog2, countCalls, List.filter_append,
          hent, Call.isCreateUser, hsucc]

/-- C5 (amended): when the entitlement holds and `getUser` succeeds, the
provisioning step resolves with that user unchanged and issues no CreateUser
call; when `getUser` fails for ANY reason (the code treats every rejection as
user-missing) and the member profile resolves, it issues exactly one
CreateUser call; and — provided creation succeeds when attempted and the forum
afterwards reports the user as existing — two successive provisioning runs
for the same handle issue at most one creation call in total. -/
theorem C5_provisioning (env1 env2 : RunEnv) (h r i : String)
    (hcreate1 : ∃ d, env1.createUser = .ok d ∧ (d.get "success").truthy = true)
    (hpersist : ∀ u, (checkAccessAndProvision env1 h r i).1 = .ok u →
      ∃ u2, env2.getUser = .ok u2) :
    (∀ u, env1.getUser = .ok u → (userHasAccessToEntity env1.ent r i).1 = true →
      checkAccessAndProvision env1 h r i = (.ok u, provisionLog2 env1 h r i)
      ∧ countCalls Call.isCreateUser (checkAccessAndProvision env1 h r i).2 = 0)
    ∧ ((env1.getUser = .notFound ∨ env1.getUser = .otherError) →
      (userHasAccessToEntity env1.ent r i).1 = true →
      ∀ fn ln mh em, env1.member = .ok fn ln mh em →
      countCalls Call.isCreateUser (checkAccessAndProvision env1 h r i).2 = 1)
    ∧ countCalls Call.isCreateUser
        ((checkAccessAndProvision env1 h r i).2 ++ (checkAccessAndProvision env2 h r i).2) ≤ 1 := by
  refine ⟨?_, ?_, ?_⟩
  · intro u hu hA
    refine ⟨?_, prov_createUser_zero_of_getUser_ok env1 h r i u hu⟩
    unfold checkAccessAndProvision
    rw [hA, hu]
    simp
  · intro hu hA fn ln mh em hm
    exact prov_createUser_one_of_getUser_fail env1 h r i hu hA fn ln mh em hm
  · rw [countCalls_append]
    cases ho : (checkAccessAndProvision env1 h r i).1 with
    | ok u =>
      obtain ⟨u2, hu2⟩ := hpersist u ho
      have h2 := prov_createUser_zero_of_getUser_ok env2 h r i u2 hu2
      have h1 := prov_createUser_le_one env1 h r i
      omega
    | denied =>
      have h1 := prov_createUser_zero_of_denied env1 h r i ho
      have h2 := prov_createUser_le_one env2 h r i
      omega
    | failed =>
      have h1 := prov_createUser_zero_of_failed env1 h r i hcreate1 ho
      have h2 := prov_createUser_le_one env2 h r i
      omega

/-- The scenario environment after the user has been provisioned: `getUser`
now succeeds. -/
def provisionedEnv : RunEnv :=
  { scenarioAEnv with getUser := .ok (.obj [("username", .str "mjones")]) }

/-- C5 witness: a first run that provisions "mjones" followed by a second run
that finds the user issues at most one creation in total. -/
theorem C5_provisioning_witness :
    scenarioAEnv.createUser = CreateUserOutcome.ok (.obj [("success", .bool true)])
    ∧ provisionedEnv.getUser = GetUserOutcome.ok (.obj [("username", .str "mjones")])
    ∧ countCalls Call.isCreateUser
        ((checkAccessAndProvision scenarioAEnv "mjones" "project" "42").2 ++
         (checkAccessAndProvision provisionedEnv "mjones" "project" "42").2) ≤ 1 :=
  ⟨rfl, rfl,
    (C5_provisioning scenarioAEnv provisionedEnv "mjones" "project" "42"
      ⟨.obj [("success", .bool true)], rfl, rfl⟩
      (fun _ _ => ⟨.obj [("username", .str "mjones")], rfl⟩)).2.2⟩

end TcMessageService
